import Mathlib

/-!
Shallow embedding of `src/installed_service_handler.py` from the
iombian-installed-services-handler repository, and proofs about it.

The single class `InstalledServiceHandler` watches one service directory,
debounces filesystem events with a `threading.Timer`, and drives an external
container orchestration tool (`python_on_whales`).  We embed:

* the filesystem as a partial map from directory path to its listing
  (`os.listdir` raises `FileNotFoundError` on a missing directory);
* the orchestration runtime as an oracle: which containers a `ps` label
  query returns, and which individual calls raise;
* every method of the class as a pure function on an explicit `Handler`
  state, returning the list of orchestration calls it issues and an
  `Except` value for a propagating Python exception;
* the debounce timer as an optional pending deadline (`Option ℚ`); a
  qualifying event overwrites it (cancel-then-arm collapses to assignment),
  and a fire consumes it.
-/

namespace IomSvc

/-- A Python exception that escapes a call. -/
inductive PyError where
  | fileNotFound
  | orchestration
  deriving DecidableEq, Repr

/-- One call issued to the external orchestration tool. -/
inductive OrchCall where
  | composeUp (composeFilePath : String)
  | ps (labelFilter : String)
  | containerStop (container : String)
  | containerRemove (container : String)
  | volumePrune
  deriving DecidableEq, Repr

/-- The orchestration runtime as seen by the handler: what a `ps` label
query returns, and which calls fail (raise) when issued. -/
structure Runtime where
  psResult : String → List String
  fails : OrchCall → Bool

/-- The filesystem: a directory path maps to its listing, or `none` when
the directory does not exist (then `os.listdir` raises `FileNotFoundError`). -/
def FS : Type := String → Option (List String)

/-- A watchdog filesystem event, as consumed by `on_any_event`. -/
structure FSEvent where
  src_path : String
  is_directory : Bool
  event_type : String
  deriving DecidableEq, Repr

/-- The class constant `InstalledServiceHandler.ACCEPTED_FILES`. -/
def ACCEPTED_FILES : List String := ["docker-compose.yaml", "docker-compose.yml", ".env"]

/-- The class constant `InstalledServiceHandler.ACCEPTED_EVENTS`. -/
def ACCEPTED_EVENTS : List String := ["modified", "created", "deleted"]

/-- The mutable state of one `InstalledServiceHandler` instance.  The
`DockerClient` is represented by the compose file path it was built from;
the `Timer` by its pending deadline; the `Observer` by a running flag. -/
structure Handler where
  service_path : String
  service_name : String
  wait_seconds : ℚ
  timer : Option ℚ
  observer_running : Bool
  files : List String
  compose_file : Option String
  docker : Option String
  deriving DecidableEq, Repr

/-- Splits a character list at every slash (the semantics of Python's
`str.split` with a single-character separator). -/
def split_slash_list : List Char → List (List Char)
  | [] => [[]]
  | c :: rest =>
      match split_slash_list rest with
      | g :: gs => if c = '/' then [] :: g :: gs else (c :: g) :: gs
      | [] => [[]]

/-- Splits a path string at every slash: `service_path.split("/")`, and the
backbone of `pathlib.Path` component access. -/
def split_slash (s : String) : List String :=
  (split_slash_list s.data).map String.mk

/-- Embeds `pathlib.Path(p).name`: the final component of the path. -/
def path_name (p : String) : String :=
  (split_slash p).getLastD ""

/-- Embeds `pathlib.Path(p).parts[-2]`: the name of the immediate parent directory. -/
def path_parent_name (p : String) : String :=
  ((split_slash p).dropLast).getLastD ""

/-- The full path of the immediate parent directory of `p` (not used by the
source, which only compares the parent's name; used to state the spec's
"immediate parent directory is the service root" reading). -/
def path_parent (p : String) : String :=
  String.intercalate "/" ((split_slash p).dropLast)

/-- Embeds `_get_compose_file_name`: first match among the compose file names in
the cached listing `files`. -/
def get_compose_file_name (files : List String) : Option String :=
  if "docker-compose.yaml" ∈ files then some "docker-compose.yaml"
  else if "docker-compose.yml" ∈ files then some "docker-compose.yml"
  else none

/-- Embeds `_get_docker`: resolves the compose file name from the listing and, when
one is present, builds a `DockerClient` bound to
`service_path/compose_file`.  Returns the pair
(`self.compose_file`, `self.docker`) that the method assigns/returns. -/
def get_docker (service_path : String) (files : List String) :
    Option String × Option String :=
  let cf := get_compose_file_name files
  (cf, cf.map (fun f => service_path ++ "/" ++ f))

/-- Embeds `__init__`: `os.listdir(service_path)` raises `FileNotFoundError` when
the directory is missing, so construction fails; otherwise the listing is
cached in `files` and the binding is resolved once via `_get_docker`. -/
def init_handler (fs : FS) (service_path : String) (wait_seconds : ℚ) :
    Except PyError Handler :=
  match fs service_path with
  | none => .error .fileNotFound
  | some files =>
      let cfd := get_docker service_path files
      .ok { service_path := service_path
            service_name := (split_slash service_path).getLastD ""
            wait_seconds := wait_seconds
            timer := none
            observer_running := false
            files := files
            compose_file := cfd.1
            docker := cfd.2 }

/-- The label filter string built inside `down`. -/
def down_label (h : Handler) : String :=
  "com.docker.compose.project.config_files=" ++ h.service_path ++ "/"
    ++ h.compose_file.getD "None"

/-- The stop-then-remove loop over the containers returned by `ps`.
No per-container exception handling exists in the source: the first failing
stop or remove propagates and aborts the rest of the loop. -/
def down_loop (rt : Runtime) : List String → List OrchCall × Except PyError Unit
  | [] => ([], .ok ())
  | c :: rest =>
      if rt.fails (.containerStop c) then
        ([.containerStop c], .error .orchestration)
      else if rt.fails (.containerRemove c) then
        ([.containerStop c, .containerRemove c], .error .orchestration)
      else
        let r := down_loop rt rest
        ([.containerStop c, .containerRemove c] ++ r.1, r.2)

/-- Embeds `down`: no-op when `self.docker` is `None`; otherwise `ps` by label,
stop-and-remove each returned container, then prune volumes.  The body has
no try/except, so any failing call propagates out of `down`. -/
def down (h : Handler) (rt : Runtime) : List OrchCall × Except PyError Unit :=
  match h.docker with
  | none => ([], .ok ())
  | some _ =>
      let psCall : OrchCall := .ps (down_label h)
      if rt.fails psCall then ([psCall], .error .orchestration)
      else
        let containers := rt.psResult (down_label h)
        let r := down_loop rt containers
        match r.2 with
        | .error e => (psCall :: r.1, .error e)
        | .ok _ =>
            if rt.fails .volumePrune then
              (psCall :: (r.1 ++ [.volumePrune]), .error .orchestration)
            else
              (psCall :: (r.1 ++ [.volumePrune]), .ok ())

/-- The raw `self.docker.compose.up(detach=True)` call: issued, and failing
when the runtime says so. -/
def compose_up_raw (binding : String) (rt : Runtime) :
    List OrchCall × Except PyError Unit :=
  ([.composeUp binding],
   if rt.fails (.composeUp binding) then .error .orchestration else .ok ())

/-- Embeds `up`: no-op when `self.docker` is `None`; otherwise issues the compose-up
call inside a bare `except:` that swallows every failure, so `up` itself
never raises. -/
def up (h : Handler) (rt : Runtime) : List OrchCall × Except PyError Unit :=
  match h.docker with
  | none => ([], .ok ())
  | some b =>
      let r := compose_up_raw b rt
      match r.2 with
      | .error _ => (r.1, .ok ())
      | .ok _ => (r.1, .ok ())

/-- Embeds `reload_service_compose`: early return when docker client or compose file
is absent; otherwise `down()`, re-run `_get_docker` (over the cached `files`
listing from construction), `up()`, and clear the timer.  A failure escaping
`down` aborts the method before the rebind and before `self.timer = None`. -/
def reload_service_compose (h : Handler) (rt : Runtime) :
    Handler × List OrchCall × Except PyError Unit :=
  if h.docker.isSome ∧ h.compose_file.isSome then
    let d := down h rt
    match d.2 with
    | .error e => (h, d.1, .error e)
    | .ok _ =>
        let cfd := get_docker h.service_path h.files
        let h1 : Handler := { h with compose_file := cfd.1, docker := cfd.2 }
        let u := up h1 rt
        ({ h1 with timer := none }, d.1 ++ u.1, .ok ())
  else (h, [], .ok ())

/-- Embeds `on_any_event`: directories are ignored; a file event qualifies when its
name is accepted, its parent directory's *name* equals the service name, and
its kind is accepted; then the pending timer (if any) is cancelled and a new
one armed `wait_seconds` from now. -/
def on_any_event (h : Handler) (e : FSEvent) (now : ℚ) : Handler :=
  if e.is_directory then h
  else
    let file := path_name e.src_path
    let folder := path_parent_name e.src_path
    if file ∈ ACCEPTED_FILES ∧ folder = h.service_name
        ∧ e.event_type ∈ ACCEPTED_EVENTS then
      { h with timer := some (now + h.wait_seconds) }
    else h

/-- Embeds `start`: `observer.schedule` raises `FileNotFoundError` when the service
directory no longer exists; the handler catches it and calls `down()`
(whose own failure would propagate).  On success the observer runs. -/
def start (h : Handler) (fs : FS) (rt : Runtime) :
    Handler × List OrchCall × Except PyError Unit :=
  match fs h.service_path with
  | some _ => ({ h with observer_running := true }, [], .ok ())
  | none =>
      let d := down h rt
      (h, d.1, d.2)

/-- Embeds `stop`: stops the observer.  Nothing else: in particular the pending
timer is not touched. -/
def stop (h : Handler) : Handler :=
  { h with observer_running := false }

/-- The `threading.Timer` firing at time `now`: when a timer is pending and
its deadline has passed, `reload_service_compose` runs (and the one-shot
timer is consumed). -/
def timer_fire (h : Handler) (rt : Runtime) (now : ℚ) :
    Handler × List OrchCall × Except PyError Unit :=
  match h.timer with
  | some d =>
      if d ≤ now then
        let r := reload_service_compose h rt
        ({ r.1 with timer := none }, r.2.1, r.2.2)
      else (h, [], .ok ())
  | none => (h, [], .ok ())

/-- One step of the handler's lifetime: any public entry point. -/
inductive Op where
  | startOp (fs : FS) (rt : Runtime)
  | stopOp
  | upOp (rt : Runtime)
  | downOp (rt : Runtime)
  | eventOp (e : FSEvent) (now : ℚ)
  | fireOp (rt : Runtime) (now : ℚ)

/-- State transition of one `Op`.  `up` and `down` issue calls but assign no
field of the handler. -/
def step (h : Handler) : Op → Handler
  | .startOp fs rt => (start h fs rt).1
  | .stopOp => stop h
  | .upOp _ => h
  | .downOp _ => h
  | .eventOp e now => on_any_event h e now
  | .fireOp rt now => (timer_fire h rt now).1

/-- Delivery of one timestamped event: a pending timer whose deadline has
already passed fires first (its deadline is recorded), then `on_any_event`
handles the event. -/
def deliver (rt : Runtime) (acc : Handler × List ℚ) (te : ℚ × FSEvent) :
    Handler × List ℚ :=
  let h := acc.1
  let fires := acc.2
  let afterFire : Handler × List ℚ :=
    match h.timer with
    | some d =>
        if d ≤ te.1 then ((timer_fire h rt te.1).1, fires ++ [d])
        else (h, fires)
    | none => (h, fires)
  (on_any_event afterFire.1 te.2 te.1, afterFire.2)

/-- Run a whole timestamped event sequence, then let time run out so any
still-pending timer fires.  Returns the final handler and the list of times
at which the reload action ran. -/
def run_events (rt : Runtime) (h : Handler) (tes : List (ℚ × FSEvent)) :
    Handler × List ℚ :=
  let r := tes.foldl (deliver rt) (h, [])
  match r.1.timer with
  | some d => ((timer_fire r.1 rt d).1, r.2 ++ [d])
  | none => r


/-! ### Shared concrete fixtures and helper lemmas -/

/-- A benign runtime: no containers running, no orchestration call fails. -/
def rt0 : Runtime := { psResult := fun _ => [], fails := fun _ => false }

/-- Helper: the bare except in `up` swallows every failure, so the second
component of `up` is always a normal return. -/
theorem up_snd_ok (h : Handler) (rt : Runtime) : (up h rt).2 = Except.ok () := by
  unfold up compose_up_raw
  cases h.docker with
  | none => rfl
  | some b => dsimp only; split <;> rfl

/-! ### C6 -/

/-- C6: first-match resolution is deterministic — whenever the listing
contains both compose file names, `_get_compose_file_name` returns
`docker-compose.yaml`; and it never returns `.env`. -/
theorem c6_first_match_resolution (files : List String) :
    ("docker-compose.yaml" ∈ files → "docker-compose.yml" ∈ files →
      get_compose_file_name files = some "docker-compose.yaml")
    ∧ get_compose_file_name files ≠ some ".env" := by
  constructor
  · intro h1 _
    simp [get_compose_file_name, h1]
  · unfold get_compose_file_name
    split
    · simp
    · split <;> simp

/-- Witness for C6 at a concrete listing holding both compose file names. -/
theorem c6_witness :
    get_compose_file_name ["docker-compose.yaml", "docker-compose.yml"]
      = some "docker-compose.yaml" :=
  (c6_first_match_resolution ["docker-compose.yaml", "docker-compose.yml"]).1
    (by decide) (by decide)

/-! ### C7 -/

/-- C7: `up()` never propagates a failure — for every handler state and every
runtime behaviour (including one where the compose-up call raises), `up`
returns normally. -/
theorem c7_up_never_propagates (h : Handler) (rt : Runtime) :
    (up h rt).2 = Except.ok () :=
  up_snd_ok h rt

/-! ### C8 -/

/-- C8: no-binding safety — constructing the handler over a directory whose
listing holds no recognized definition file succeeds with an absent docker
client, and then `up()` and `down()` return normally without issuing any
orchestration call. -/
theorem c8_no_binding_safety (fs : FS) (path : String) (w : ℚ)
    (files : List String) (rt : Runtime)
    (hfs : fs path = some files)
    (h1 : "docker-compose.yaml" ∉ files) (h2 : "docker-compose.yml" ∉ files) :
    ∃ h : Handler, init_handler fs path w = .ok h ∧ h.docker = none ∧
      up h rt = ([], .ok ()) ∧ down h rt = ([], .ok ()) := by
  have hcf : get_compose_file_name files = none := by
    simp [get_compose_file_name, h1, h2]
  refine ⟨{ service_path := path
            service_name := (split_slash path).getLastD ""
            wait_seconds := w
            timer := none
            observer_running := false
            files := files
            compose_file := none
            docker := none }, ?_, rfl, rfl, rfl⟩
  simp [init_handler, hfs, get_docker, hcf]

/-- A concrete filesystem whose only directory holds no definition file. -/
def c8fs : FS := fun p =>
  if p = "/services/empty" then some [".env", "readme.md"] else none

/-- Witness for C8 at the concrete no-definition-file directory. -/
theorem c8_witness :
    ∃ h : Handler, init_handler c8fs "/services/empty" 2 = .ok h ∧
      h.docker = none ∧
      up h rt0 = ([], .ok ()) ∧ down h rt0 = ([], .ok ()) :=
  c8_no_binding_safety c8fs "/services/empty" 2 [".env", "readme.md"] rt0
    rfl (by decide) (by decide)

/-! ### C9 -/

/-- Helper: when the docker client is absent, `reload_service_compose`
returns at its guard, unchanged and silent. -/
theorem reload_none_of_docker_none (h : Handler) (rt : Runtime)
    (hd : h.docker = none) :
    reload_service_compose h rt = (h, [], .ok ()) := by
  unfold reload_service_compose
  rw [if_neg]
  intro hc
  rw [hd] at hc
  exact Bool.false_ne_true hc.1

/-- Helper: no step of the handler's lifetime assigns the docker client when
it is absent. -/
theorem step_docker_none (h : Handler) (op : Op) (hd : h.docker = none) :
    (step h op).docker = none := by
  cases op with
  | startOp fs rt =>
      show (start h fs rt).1.docker = none
      unfold start
      split <;> exact hd
  | stopOp => exact hd
  | upOp rt => exact hd
  | downOp rt => exact hd
  | eventOp e now =>
      show (on_any_event h e now).docker = none
      unfold on_any_event
      split
      · exact hd
      · dsimp only
        split <;> exact hd
  | fireOp rt now =>
      show (timer_fire h rt now).1.docker = none
      unfold timer_fire
      split
      · split
        · rw [reload_none_of_docker_none h rt hd]
          exact hd
        · exact hd
      · exact hd

/-- C9: an absent binding is permanent — when the docker client is absent the
reload action returns immediately (no calls, state untouched), and no
sequence of lifetime operations ever assigns a docker client. -/
theorem c9_absent_binding_permanent (h : Handler) (rt : Runtime)
    (ops : List Op) (hd : h.docker = none) :
    reload_service_compose h rt = (h, [], .ok ())
    ∧ (ops.foldl step h).docker = none := by
  refine ⟨reload_none_of_docker_none h rt hd, ?_⟩
  induction ops generalizing h with
  | nil => exact hd
  | cons op rest ih => exact ih (step h op) (step_docker_none h op hd)

/-- A concrete handler whose directory held no definition file. -/
def c9h : Handler :=
  { service_path := "/services/empty"
    service_name := "empty"
    wait_seconds := 2
    timer := none
    observer_running := true
    files := [".env", "readme.md"]
    compose_file := none
    docker := none }

/-- A qualifying event for the `empty` service (a definition file created
after construction). -/
def c9e : FSEvent :=
  { src_path := "/services/empty/docker-compose.yaml"
    is_directory := false
    event_type := "created" }

/-- Witness for C9: the concrete no-binding handler stays binding-free
across an event on a freshly created definition file, the resulting timer
fire, and a stop. -/
theorem c9_witness :
    reload_service_compose c9h rt0 = (c9h, [], .ok ())
    ∧ (([Op.eventOp c9e 0, Op.fireOp rt0 5, Op.stopOp].foldl step c9h).docker
        = none) :=
  c9_absent_binding_permanent c9h rt0 [Op.eventOp c9e 0, Op.fireOp rt0 5, Op.stopOp] rfl

/-! ### C10 -/

/-- C10: construction requires the service directory to exist — when the
directory is missing, `__init__` raises `FileNotFoundError` out of
`os.listdir`; and a handler constructed under an unchanged filesystem takes
the success branch of `start()`, so the missing-directory branch needs the
directory to disappear between construction and `start()`. -/
theorem c10_construction_requires_directory (fs : FS) (path : String) (w : ℚ)
    (rt : Runtime) (h : Handler) :
    (fs path = none → init_handler fs path w = .error .fileNotFound)
    ∧ (init_handler fs path w = .ok h →
        fs path ≠ none
        ∧ start h fs rt = ({ h with observer_running := true }, [], .ok ())) := by
  cases hfs : fs path with
  | none =>
      refine ⟨fun _ => by simp [init_handler, hfs], fun hok => ?_⟩
      simp [init_handler, hfs] at hok
  | some files =>
      refine ⟨fun hc => Option.noConfusion hc, fun hok => ?_⟩
      have hpath : h.service_path = path := by
        simp [init_handler, hfs] at hok
        rw [← hok]
      refine ⟨by simp [hfs], ?_⟩
      unfold start
      rw [hpath, hfs]

/-- A concrete one-directory filesystem for the C10 witness. -/
def c10fs : FS := fun p =>
  if p = "/services/foo" then some ["docker-compose.yaml"] else none

/-- The handler `__init__` builds over `c10fs`. -/
def c10h : Handler :=
  { service_path := "/services/foo"
    service_name := "foo"
    wait_seconds := 2
    timer := none
    observer_running := false
    files := ["docker-compose.yaml"]
    compose_file := some "docker-compose.yaml"
    docker := some "/services/foo/docker-compose.yaml" }

/-- Witness for C10: on the concrete filesystem, construction succeeds and
`start()` under the unchanged filesystem takes the success branch. -/
theorem c10_witness :
    init_handler c10fs "/services/foo" 2 = .ok c10h
    ∧ start c10h c10fs rt0 = ({ c10h with observer_running := true }, [], .ok ()) :=
  ⟨rfl,
   ((c10_construction_requires_directory c10fs "/services/foo" 2 rt0 c10h).2 rfl).2⟩

/-! ### C1 -/

/-- A filesystem holding one service directory with a `.yml` compose file
(the state at construction time). -/
def c1fs : FS := fun p =>
  if p = "/services/foo" then some ["docker-compose.yml", ".env"] else none

/-- The handler `__init__` builds over `c1fs`. -/
def c1h : Handler :=
  { service_path := "/services/foo"
    service_name := "foo"
    wait_seconds := 2
    timer := none
    observer_running := false
    files := ["docker-compose.yml", ".env"]
    compose_file := some "docker-compose.yml"
    docker := some "/services/foo/docker-compose.yml" }

/-- Counterexample to C1: the handler was constructed when the directory
held only `docker-compose.yml`; by reload time the directory also holds
`docker-compose.yaml` (so a scan at call time would resolve the `.yaml`
path), yet the reload rebinds from the listing cached at construction and
produces the `.yml` path. -/
theorem c1_counterexample :
    init_handler c1fs "/services/foo" 2 = .ok c1h
    ∧ get_compose_file_name ["docker-compose.yaml", "docker-compose.yml", ".env"]
        = some "docker-compose.yaml"
    ∧ (reload_service_compose c1h rt0).1.docker
        = some "/services/foo/docker-compose.yml"
    ∧ (get_docker "/services/foo"
        ["docker-compose.yaml", "docker-compose.yml", ".env"]).2
        = some "/services/foo/docker-compose.yaml"
    ∧ ("/services/foo/docker-compose.yml" : String)
        ≠ "/services/foo/docker-compose.yaml" :=
  ⟨rfl, rfl, rfl, rfl, by decide⟩

/-- C1 (amended): each reload discards the old binding and recomputes it,
but from the file listing cached at construction (`self.files`), not from
the directory's contents at reload time: when the guard passes and `down`
returns normally, the post-reload binding equals `_get_docker` applied to
the cached listing, and the timer is cleared. -/
theorem c1_amended_rebind_from_construction_listing (h : Handler)
    (rt : Runtime)
    (hdk : h.docker.isSome = true) (hcf : h.compose_file.isSome = true)
    (hdown : (down h rt).2 = Except.ok ()) :
    ((reload_service_compose h rt).1.compose_file,
      (reload_service_compose h rt).1.docker)
      = get_docker h.service_path h.files
    ∧ (reload_service_compose h rt).1.timer = none := by
  unfold reload_service_compose
  rw [if_pos ⟨hdk, hcf⟩]
  dsimp only
  rw [hdown]
  dsimp only
  exact ⟨rfl, rfl⟩

/-- Witness for the amended C1 at the concrete handler and benign runtime. -/
theorem c1_witness :
    ((reload_service_compose c1h rt0).1.compose_file,
      (reload_service_compose c1h rt0).1.docker)
      = get_docker c1h.service_path c1h.files
    ∧ (reload_service_compose c1h rt0).1.timer = none :=
  c1_amended_rebind_from_construction_listing c1h rt0 rfl rfl rfl

/-! ### C3 -/

/-- A handler with an armed debounce timer (deadline 5) and a live binding. -/
def c3h : Handler :=
  { service_path := "/services/foo"
    service_name := "foo"
    wait_seconds := 2
    timer := some 5
    observer_running := true
    files := ["docker-compose.yml"]
    compose_file := some "docker-compose.yml"
    docker := some "/services/foo/docker-compose.yml" }

/-- Counterexample to C3: after `stop()` the timer is still pending, and
once its deadline passes the reload action executes, issuing orchestration
calls. -/
theorem c3_counterexample :
    (stop c3h).timer = some 5
    ∧ (timer_fire (stop c3h) rt0 5).2.1 =
        [OrchCall.ps
           "com.docker.compose.project.config_files=/services/foo/docker-compose.yml",
         OrchCall.volumePrune,
         OrchCall.composeUp "/services/foo/docker-compose.yml"] := by
  refine ⟨rfl, ?_⟩
  show (timer_fire { c3h with observer_running := false } rt0 5).2.1 = _
  unfold timer_fire
  dsimp only [c3h]
  rw [if_pos (le_refl (5 : ℚ))]
  rfl

/-- C3 (amended): `stop()` stops the observer only; it does not cancel a
pending debounce timer, so a handler armed with deadline `d` is still armed
after `stop()`, and once the deadline passes the timer fires and the reload
action runs. -/
theorem c3_amended_stop_does_not_cancel (h : Handler) (rt : Runtime)
    (now d : ℚ) (ht : h.timer = some d) (hle : d ≤ now) :
    (stop h).timer = some d
    ∧ timer_fire (stop h) rt now
        = ({ (reload_service_compose (stop h) rt).1 with timer := none },
           (reload_service_compose (stop h) rt).2.1,
           (reload_service_compose (stop h) rt).2.2) := by
  have ht' : (stop h).timer = some d := ht
  refine ⟨ht', ?_⟩
  unfold timer_fire
  rw [ht']
  dsimp only
  rw [if_pos hle]

/-- Witness for the amended C3 at the concrete armed handler. -/
theorem c3_witness :
    (stop c3h).timer = some 5
    ∧ timer_fire (stop c3h) rt0 5
        = ({ (reload_service_compose (stop c3h) rt0).1 with timer := none },
           (reload_service_compose (stop c3h) rt0).2.1,
           (reload_service_compose (stop c3h) rt0).2.2) :=
  c3_amended_stop_does_not_cancel c3h rt0 5 5 rfl (le_refl 5)

/-! ### C4 -/

/-- A bound handler for the failure-propagation scenarios. -/
def c4h : Handler :=
  { service_path := "/services/bar"
    service_name := "bar"
    wait_seconds := 1
    timer := none
    observer_running := true
    files := ["docker-compose.yaml"]
    compose_file := some "docker-compose.yaml"
    docker := some "/services/bar/docker-compose.yaml" }

/-- A runtime with two containers for the service where stopping the first
container raises. -/
def c4rt : Runtime :=
  { psResult := fun _ => ["c1", "c2"]
    fails := fun c => decide (c = OrchCall.containerStop "c1") }

/-- Counterexample to C4: with two running containers and a failing stop on
the first, the failure propagates out of `down()`; the second container is
never stopped or removed and the volume prune never runs. -/
theorem c4_counterexample :
    down c4h c4rt =
      ([OrchCall.ps
          "com.docker.compose.project.config_files=/services/bar/docker-compose.yaml",
        OrchCall.containerStop "c1"],
       Except.error PyError.orchestration) := rfl

/-- The stop-then-remove calls the loop issues for containers whose stop and
remove both succeed. -/
def stop_remove_calls (cs : List String) : List OrchCall :=
  cs.foldr (fun c acc => .containerStop c :: .containerRemove c :: acc) []

/-- Helper for C4: the unfolding of one step of the loop. -/
theorem down_loop_cons (rt : Runtime) (c : String) (rest : List String) :
    down_loop rt (c :: rest)
      = if rt.fails (.containerStop c) then
          ([.containerStop c], .error .orchestration)
        else if rt.fails (.containerRemove c) then
          ([.containerStop c, .containerRemove c], .error .orchestration)
        else
          ([.containerStop c, .containerRemove c] ++ (down_loop rt rest).1,
           (down_loop rt rest).2) := rfl

/-- Helper for C4: the loop processes a fully successful prefix and then
behaves as the loop over the remaining containers. -/
theorem down_loop_append_ok (rt : Runtime) :
    ∀ (pre rest : List String),
      (∀ x ∈ pre, rt.fails (.containerStop x) = false
        ∧ rt.fails (.containerRemove x) = false) →
      down_loop rt (pre ++ rest)
        = (stop_remove_calls pre ++ (down_loop rt rest).1,
           (down_loop rt rest).2)
  | [], rest, _ => by simp [stop_remove_calls]
  | c :: pre, rest, hok => by
      obtain ⟨hs, hr⟩ := hok c (List.mem_cons_self _ _)
      have ih := down_loop_append_ok rt pre rest
        (fun x hx => hok x (List.mem_cons_of_mem _ hx))
      show down_loop rt (c :: (pre ++ rest)) = _
      rw [down_loop_cons]
      rw [hs]
      simp only [Bool.false_eq_true, if_false]
      rw [hr]
      simp only [Bool.false_eq_true, if_false]
      rw [ih]
      dsimp only
      simp [stop_remove_calls, List.append_assoc]

/-- Helper for C4: when every container's stop and remove succeed, the loop
issues all stop/remove pairs and returns normally. -/
theorem down_loop_all_ok (rt : Runtime) (cs : List String)
    (hok : ∀ x ∈ cs, rt.fails (.containerStop x) = false
      ∧ rt.fails (.containerRemove x) = false) :
    down_loop rt cs = (stop_remove_calls cs, .ok ()) := by
  have h := down_loop_append_ok rt cs [] hok
  simpa [down_loop] using h

/-- C4 (amended): only `up()` catches orchestration failures; `down()` has no
exception handling.  For a bound handler: a failing `ps` query propagates out
of `down()` before any container is touched; a failing stop — or a failing
remove — on a container at any position of the returned list propagates out
of `down()` and aborts the loop, so the containers after it and the volume
prune are skipped (the call list ends at the failing container); and when
every container is processed, a failing volume prune propagates as well.
`up()`, by contrast, returns normally for every runtime behaviour. -/
theorem c4_amended_down_propagates (h : Handler) (rt : Runtime) (b : String)
    (hdk : h.docker = some b) :
    (up h rt).2 = Except.ok ()
    ∧ (rt.fails (.ps (down_label h)) = true →
        down h rt = ([.ps (down_label h)], .error .orchestration))
    ∧ (rt.fails (.ps (down_label h)) = false →
        ∀ pre c post,
          rt.psResult (down_label h) = pre ++ c :: post →
          (∀ x ∈ pre, rt.fails (.containerStop x) = false
            ∧ rt.fails (.containerRemove x) = false) →
          (rt.fails (.containerStop c) = true →
            down h rt = (.ps (down_label h) :: stop_remove_calls pre
                ++ [.containerStop c], .error .orchestration))
          ∧ (rt.fails (.containerStop c) = false →
              rt.fails (.containerRemove c) = true →
              down h rt = (.ps (down_label h) :: stop_remove_calls pre
                  ++ [.containerStop c, .containerRemove c],
                .error .orchestration)))
    ∧ (rt.fails (.ps (down_label h)) = false →
        (∀ x ∈ rt.psResult (down_label h), rt.fails (.containerStop x) = false
          ∧ rt.fails (.containerRemove x) = false) →
        rt.fails .volumePrune = true →
        down h rt = (.ps (down_label h)
            :: stop_remove_calls (rt.psResult (down_label h)) ++ [.volumePrune],
          .error .orchestration)) := by
  refine ⟨up_snd_ok h rt, ?_, ?_, ?_⟩
  · intro hps
    unfold down
    rw [hdk]
    dsimp only
    rw [hps]
    simp only [if_true]
  · intro hps pre c post hcs hpre
    constructor
    · intro hsf
      have hloop : down_loop rt (pre ++ c :: post)
          = (stop_remove_calls pre ++ [.containerStop c],
             .error .orchestration) := by
        rw [down_loop_append_ok rt pre (c :: post) hpre]
        unfold down_loop
        rw [hsf]
        simp only [if_true]
      unfold down
      rw [hdk]
      dsimp only
      rw [hps]
      simp only [Bool.false_eq_true, if_false]
      rw [hcs, hloop]
      rfl
    · intro hsf hrf
      have hloop : down_loop rt (pre ++ c :: post)
          = (stop_remove_calls pre ++ [.containerStop c, .containerRemove c],
             .error .orchestration) := by
        rw [down_loop_append_ok rt pre (c :: post) hpre]
        unfold down_loop
        rw [hsf]
        simp only [Bool.false_eq_true, if_false]
        rw [hrf]
        simp only [if_true]
      unfold down
      rw [hdk]
      dsimp only
      rw [hps]
      simp only [Bool.false_eq_true, if_false]
      rw [hcs, hloop]
      rfl
  · intro hps hall hprune
    have hloop := down_loop_all_ok rt (rt.psResult (down_label h)) hall
    unfold down
    rw [hdk]
    dsimp only
    rw [hps]
    simp only [Bool.false_eq_true, if_false]
    rw [hloop]
    dsimp only
    rw [if_pos hprune]
    rfl

/-- A runtime where every container operation succeeds but the final volume
prune raises. -/
def c4rtPrune : Runtime :=
  { psResult := fun _ => ["c1"]
    fails := fun c => decide (c = OrchCall.volumePrune) }

/-- Witness for the amended C4: a failing stop on the first of two
containers aborts the loop (second container and prune skipped, error
propagated), and under a prune-failing runtime the error propagates after
both container calls. -/
theorem c4_witness :
    ((up c4h c4rt).2 = Except.ok ()
      ∧ down c4h c4rt
          = ([.ps (down_label c4h), .containerStop "c1"],
             .error .orchestration))
    ∧ down c4h c4rtPrune
        = ([.ps (down_label c4h), .containerStop "c1", .containerRemove "c1",
            .volumePrune], .error .orchestration) := by
  have H := c4_amended_down_propagates c4h c4rt
    "/services/bar/docker-compose.yaml" rfl
  have Hp := c4_amended_down_propagates c4h c4rtPrune
    "/services/bar/docker-compose.yaml" rfl
  refine ⟨⟨H.1, ?_⟩, ?_⟩
  · have h3 := (H.2.2.1 rfl [] "c1" ["c2"] rfl (by simp)).1 rfl
    simpa [stop_remove_calls] using h3
  · have h4 := Hp.2.2.2 rfl (by decide) rfl
    simpa [stop_remove_calls] using h4

/-! ### C5 -/

/-- A handler for the `foo` service, used in the filter scenarios. -/
def c5h : Handler :=
  { service_path := "/services/foo"
    service_name := "foo"
    wait_seconds := 2
    timer := none
    observer_running := true
    files := ["docker-compose.yaml"]
    compose_file := some "docker-compose.yaml"
    docker := some "/services/foo/docker-compose.yaml" }

/-- An event on a nested compose file whose immediate parent directory is a
subdirectory that happens to share the service's name. -/
def c5e : FSEvent :=
  { src_path := "/services/foo/sub/foo/docker-compose.yaml"
    is_directory := false
    event_type := "modified" }

/-- Counterexample to C5: the nested event arms the timer even though its
immediate parent directory is not the service root — the source compares
only the parent directory's name against the service name. -/
theorem c5_counterexample :
    (on_any_event c5h c5e 0).timer = some ((0 : ℚ) + 2)
    ∧ path_parent c5e.src_path = "/services/foo/sub/foo"
    ∧ c5h.service_path = "/services/foo"
    ∧ ("/services/foo/sub/foo" : String) ≠ "/services/foo" :=
  ⟨rfl, rfl, rfl, by decide⟩

/-- C5 (amended): a reload timer is armed if and only if the event target is
not a directory, its filename is accepted, the *name* of its immediate
parent directory equals the service name (so a nested file under a
same-named subdirectory also qualifies), and the event kind is accepted. -/
theorem c5_amended_filter (h : Handler) (e : FSEvent) (now : ℚ) :
    (e.is_directory = false → path_name e.src_path ∈ ACCEPTED_FILES →
      path_parent_name e.src_path = h.service_name →
      e.event_type ∈ ACCEPTED_EVENTS →
      on_any_event h e now = { h with timer := some (now + h.wait_seconds) })
    ∧ (e.is_directory = true ∨ path_name e.src_path ∉ ACCEPTED_FILES
        ∨ path_parent_name e.src_path ≠ h.service_name
        ∨ e.event_type ∉ ACCEPTED_EVENTS →
      on_any_event h e now = h) := by
  unfold on_any_event
  constructor
  · intro hdir hf hp he
    rw [hdir]
    simp only [Bool.false_eq_true, if_false]
    rw [if_pos ⟨hf, hp, he⟩]
  · intro hbad
    split
    · rfl
    · dsimp only
      rw [if_neg]
      rintro ⟨hf, hp, he⟩
      rename_i hdir
      rcases hbad with hb | hb | hb | hb
      · exact hdir hb
      · exact hb hf
      · exact hb hp
      · exact hb he

/-- An event on the compose file directly under the service root. -/
def c5e_top : FSEvent :=
  { src_path := "/services/foo/docker-compose.yaml"
    is_directory := false
    event_type := "modified" }

/-- Witness for the amended C5: a compose-file event directly under the
service root arms the timer. -/
theorem c5_witness :
    on_any_event c5h c5e_top 0
      = { c5h with timer := some ((0 : ℚ) + c5h.wait_seconds) } :=
  (c5_amended_filter c5h c5e_top 0).1 rfl (by decide) (by decide) (by decide)

/-! ### C2 -/

/-- Helper for C2: while a burst is in progress (each event arrives strictly
before the pending deadline), no timer fires and each qualifying event
re-arms the timer at its own time plus `wait_seconds`. -/
theorem burst_foldl (rt : Runtime) (n : String) (w : ℚ)
    (tes : List (ℚ × FSEvent)) :
    ∀ (h : Handler) (fires : List ℚ) (t0 : ℚ),
      h.service_name = n → h.wait_seconds = w →
      h.timer = some (t0 + w) →
      (∀ p ∈ tes, (p.2).is_directory = false
        ∧ path_name (p.2).src_path ∈ ACCEPTED_FILES
        ∧ path_parent_name (p.2).src_path = n
        ∧ (p.2).event_type ∈ ACCEPTED_EVENTS) →
      (∀ p ∈ tes.head?, p.1 < t0 + w) →
      List.Chain' (fun a b : ℚ × FSEvent => b.1 < a.1 + w) tes →
      ∃ h' : Handler, List.foldl (deliver rt) (h, fires) tes = (h', fires)
        ∧ h'.service_name = n ∧ h'.wait_seconds = w
        ∧ h'.timer = some ((tes.map Prod.fst).getLastD t0 + w) := by
  induction tes with
  | nil =>
      intro h fires t0 hn hw ht _ _ _
      exact ⟨h, rfl, hn, hw, by simpa using ht⟩
  | cons p rest ih =>
      obtain ⟨t, e⟩ := p
      intro h fires t0 hn hw ht hq hhead hchain
      have hlt : t < t0 + w := hhead (t, e) rfl
      have hstep : deliver rt (h, fires) (t, e)
          = ({ h with timer := some (t + h.wait_seconds) }, fires) := by
        unfold deliver
        dsimp only
        rw [ht]
        dsimp only
        rw [if_neg (not_le.mpr hlt)]
        obtain ⟨hd, hf, hp, he⟩ := hq (t, e) (List.mem_cons_self _ _)
        unfold on_any_event
        rw [hd]
        simp only [Bool.false_eq_true, if_false]
        rw [if_pos ⟨hf, hp.trans hn.symm, he⟩]
      rw [List.foldl_cons, hstep]
      have harm : ({ h with timer := some (t + h.wait_seconds) } : Handler).timer
          = some (t + w) := by rw [hw]
      obtain ⟨h', hfold, hn', hw', ht'⟩ :=
        ih { h with timer := some (t + h.wait_seconds) } fires t hn hw harm
          (fun p hp => hq p (List.mem_cons_of_mem _ hp))
          (fun p hp => (List.chain'_cons'.mp hchain).1 p hp)
          ((List.chain'_cons'.mp hchain).2)
      refine ⟨h', hfold, hn', hw', ?_⟩
      rw [List.map_cons, List.getLastD_cons]
      exact ht'

/-- Helper for C2: the last arming time of a burst is the time of its last
event. -/
theorem getLastD_map_fst_eq_getLast :
    ∀ (rest : List (ℚ × FSEvent)) (t : ℚ) (e : FSEvent),
      (rest.map Prod.fst).getLastD t
        = (((t, e) :: rest).getLast (List.cons_ne_nil _ _)).1
  | [], _, _ => rfl
  | (t', e') :: rest, t, e => by
      rw [List.map_cons, List.getLastD_cons,
        getLastD_map_fst_eq_getLast rest t' e']
      rfl

/-- C2: debounce coalescing with a sliding window — for every non-empty
sequence of qualifying events in which each successive event arrives less
than `wait_seconds` after the previous one, exactly one reload fires, and it
fires `wait_seconds` after the last event of the burst. -/
theorem c2_debounce_coalescing (rt : Runtime) (h : Handler)
    (tes : List (ℚ × FSEvent)) (hne : tes ≠ [])
    (hidle : h.timer = none)
    (hq : ∀ p ∈ tes, (p.2).is_directory = false
      ∧ path_name (p.2).src_path ∈ ACCEPTED_FILES
      ∧ path_parent_name (p.2).src_path = h.service_name
      ∧ (p.2).event_type ∈ ACCEPTED_EVENTS)
    (hchain : List.Chain'
      (fun a b : ℚ × FSEvent => b.1 < a.1 + h.wait_seconds) tes) :
    (run_events rt h tes).2 = [(tes.getLast hne).1 + h.wait_seconds] := by
  obtain ⟨⟨t, e⟩, rest, rfl⟩ := List.exists_cons_of_ne_nil hne
  unfold run_events
  have hstep : deliver rt (h, ([] : List ℚ)) (t, e)
      = ({ h with timer := some (t + h.wait_seconds) }, []) := by
    unfold deliver
    dsimp only
    rw [hidle]
    dsimp only
    obtain ⟨hd, hf, hp, he⟩ := hq (t, e) (List.mem_cons_self _ _)
    unfold on_any_event
    rw [hd]
    simp only [Bool.false_eq_true, if_false]
    rw [if_pos ⟨hf, hp, he⟩]
  rw [List.foldl_cons, hstep]
  obtain ⟨h', hfold, hn', hw', ht'⟩ :=
    burst_foldl rt h.service_name h.wait_seconds rest
      { h with timer := some (t + h.wait_seconds) } [] t rfl rfl
      (by rfl)
      (fun p hp => hq p (List.mem_cons_of_mem _ hp))
      (fun p hp => (List.chain'_cons'.mp hchain).1 p hp)
      ((List.chain'_cons'.mp hchain).2)
  rw [hfold]
  dsimp only
  rw [ht']
  dsimp only
  rw [getLastD_map_fst_eq_getLast rest t e]
  rfl

/-- Witness for C2: two qualifying modifications at t = 0 and t = 1 with
`wait_seconds = 2` produce exactly one reload, at t = 1 + 2 = 3. -/
theorem c2_witness :
    (run_events rt0 c5h [(0, c5e_top), (1, c5e_top)]).2 = [(1 : ℚ) + 2] :=
  c2_debounce_coalescing rt0 c5h [(0, c5e_top), (1, c5e_top)]
    (List.cons_ne_nil _ _) rfl (by decide)
    (List.chain'_cons.mpr ⟨by norm_num [c5h], List.chain'_singleton _⟩)

end IomSvc
